import Mathlib

/-!
Verification of the wireless-data-license-processor core against its
natural-language specification.

The definitions below are a shallow embedding of the repository's code:

* `Wdlp.Parser` — `src/src/wdlp/reader.py` (`PullParser`, `ParserContext`,
  `ParserState`, `Record`, `ParseError`).  The Python `__next__` method is a
  while-loop that consumes one character per iteration and exits by
  `return` (a record), `raise` (a parse error) or `StopIteration`; it is
  embedded as a one-character `step` function driven by a structurally
  recursive `loop` over the remaining input.  Raised errors carry the
  mutated parser state, because the Python object keeps that state and can
  be called again after an exception.
* `Wdlp.Writer` — `src/src/wdlp/writer.py` (`AbstractWriter` transaction
  protocol and `JSONLWriter.write`), with the filesystem modelled as the
  content of the destination path and of the temporary file.
* `Wdlp.Mapper` — `src/src/wdlp/mapper.py` and `src/src/wdlp/schema.py`
  (`AMMapper`, `ENMapper`, pydantic models `AMRecord`, `ENRecord`).

`partial_field` of the Python `ParseError` is called `part_field` here.
-/

namespace Wdlp

/-! ## Data model of the parser (src/src/wdlp/reader.py) -/

/-- `PullParser.MAX_FIELD_LENGTH` -/
def MAX_FIELD_LENGTH : Nat := 1024

/-- `PullParser.MAX_FIELDS` -/
def MAX_FIELDS : Nat := 256

/-- `Record` of reader.py: a line number and the list of fields. -/
structure Record where
  line : Nat
  fields : List String
deriving DecidableEq

/-- `ParseError` of reader.py.  `part_field` is the source's
`partial_field`. -/
structure ParseError where
  line : Nat
  column : Nat
  expected : String
  received : String
  consumed_fields : List String
  part_field : String
  context : String
deriving DecidableEq

/-- `ParserState` of reader.py. -/
inductive ParserState where
  | START
  | FIELD
  | AFTER_PIPE
  | AFTER_CR
deriving DecidableEq

/-- `ParserContext` of reader.py.  `current_field` is the list of characters
of the field being built; `error` is the context's `error` slot (initialised
to `None` in `__init__` and consulted at the top of `__next__`). -/
structure ParserContext where
  current_field : List Char
  fields : List String
  field_length : Nat
  field_count : Nat
  line : Nat
  column : Nat
  record_start_line : Nat
  error : Option ParseError
  in_record : Bool
deriving DecidableEq

/-- The state of a `PullParser` object between calls to `__next__`: the
context, the state-machine state, and the characters not yet consumed
(the concatenation of the unread part of the buffer and of the stream). -/
structure Parser where
  ctx : ParserContext
  state : ParserState
  input : List Char
deriving DecidableEq

/-- What one call of `__next__` does: returns a `Record`, raises a
`ParseError`, or raises `StopIteration` (`stop`).  Each outcome carries the
parser object as the call leaves it, since the Python object survives the
exception and can be called again. -/
inductive NextResult where
  | record : Record → Parser → NextResult
  | error : ParseError → Parser → NextResult
  | stop : Parser → NextResult
deriving DecidableEq

/-- Python `repr` of a list of plain strings, as interpolated by the
f-string in `_add_field` (field content here never needs quote escaping). -/
def pyReprStrList (xs : List String) : String :=
  let q := String.singleton (Char.ofNat 39)
  "[" ++ String.intercalate ", " (xs.map (fun s => q ++ s ++ q)) ++ "]"

/-- `PullParser._complete_field`: join the buffered characters and strip one
trailing LF, then one trailing CR. -/
def complete_field (cf : List Char) : String :=
  let cf1 := if cf.getLast? = some '\n' then cf.dropLast else cf
  let cf2 := if cf1.getLast? = some '\r' then cf1.dropLast else cf1
  String.mk cf2

/-- `PullParser._add_field`: append the field, clear the accumulation
buffer, bump the count, and raise when the count exceeds `MAX_FIELDS`.
The returned context keeps the mutations even when the error is raised. -/
def add_field (ctx : ParserContext) (field : String) : ParserContext × Option ParseError :=
  let ctx' : ParserContext :=
    { ctx with fields := ctx.fields ++ [field], current_field := [],
               field_length := 0, field_count := ctx.field_count + 1 }
  if MAX_FIELDS < ctx'.field_count then
    (ctx', some
      { line := ctx'.line, column := ctx'.column,
        expected := "field count <= " ++ toString MAX_FIELDS,
        received := toString ctx'.field_count,
        consumed_fields := ctx'.fields.dropLast,
        part_field := "",
        context := "Too many fields in record. This may indicate missing newlines or record delimiters in the input file. Fields found: " ++ pyReprStrList ctx'.fields })
  else (ctx', none)

/-- `PullParser._complete_record`: raise when no field was accumulated,
otherwise produce the record and reset fields, count and state. -/
def complete_record (ctx : ParserContext) :
    Except ParseError (Record × ParserContext × ParserState) :=
  if ctx.fields.length < 1 then
    .error
      { line := ctx.record_start_line, column := ctx.column,
        expected := "minimum 1 field per record",
        received := toString ctx.fields.length ++ " fields",
        consumed_fields := ctx.fields, part_field := "",
        context := "Record must contain at least one field" }
  else
    .ok (⟨ctx.record_start_line, ctx.fields⟩,
         { ctx with fields := [], field_count := 0 }, .START)

/-- Outcome of consuming one character inside the `__next__` loop. -/
inductive StepResult where
  | cont : ParserState → ParserContext → StepResult
  | emit : Record → ParserState → ParserContext → StepResult
  | err : ParseError → ParserState → ParserContext → StepResult
deriving DecidableEq

/-- One iteration of the `while True` loop of `PullParser.__next__` on
character `c`: the column update followed by the state dispatch.  Mirrors
reader.py lines 150-276 branch for branch (logging elided). -/
def step (c : Char) (state : ParserState) (ctx : ParserContext) : StepResult :=
  let ctx := if c = '\n' then { ctx with column := 1 }
             else { ctx with column := ctx.column + 1 }
  match state with
  | .START =>
    if c = '|' then
      if ctx.fields = [] then
        .err { line := ctx.line, column := ctx.column,
               expected := "minimum 1 field per record",
               received := "empty record", consumed_fields := [],
               part_field := "",
               context := "Record must contain at least one field" }
          .START ctx
      else
        let ctx := { ctx with record_start_line := ctx.line, in_record := true }
        match add_field ctx "" with
        | (ctx, some e) => .err e .AFTER_PIPE ctx
        | (ctx, none) => .cont .AFTER_PIPE ctx
    else if c = '\n' then
      if ctx.in_record then
        .err { line := ctx.line, column := ctx.column,
               expected := "minimum 1 field per record",
               received := "empty record", consumed_fields := [],
               part_field := "",
               context := "Empty record found" }
          .START ctx
      else
        .cont .START { ctx with line := ctx.line + 1 }
    else if c = '\r' then
      if ctx.in_record then .cont .AFTER_CR ctx else .cont .START ctx
    else
      .cont .FIELD
        { ctx with record_start_line := ctx.line,
                   current_field := ctx.current_field ++ [c],
                   field_length := 1, in_record := true }
  | .FIELD =>
    if c = '|' then
      match add_field ctx (complete_field ctx.current_field) with
      | (ctx, some e) => .err e .AFTER_PIPE ctx
      | (ctx, none) => .cont .AFTER_PIPE ctx
    else if c = '\r' then
      .cont .AFTER_CR ctx
    else if c = '\n' then
      match add_field ctx (complete_field ctx.current_field) with
      | (ctx, some e) => .err e .FIELD ctx
      | (ctx, none) =>
        match complete_record ctx with
        | .error e => .err e .FIELD ctx
        | .ok (r, ctx, st) =>
          .emit r st { ctx with line := ctx.line + 1, in_record := false }
    else
      if MAX_FIELD_LENGTH ≤ ctx.field_length then
        .err { line := ctx.line, column := ctx.column - 1,
               expected := "field length <= " ++ toString MAX_FIELD_LENGTH,
               received := toString (ctx.field_length + 1),
               consumed_fields := ctx.fields,
               part_field := complete_field ctx.current_field,
               context := "Field length constraint violation" }
          .FIELD ctx
      else
        .cont .FIELD
          { ctx with current_field := ctx.current_field ++ [c],
                     field_length := ctx.field_length + 1 }
  | .AFTER_PIPE =>
    if c = '|' then
      match add_field ctx "" with
      | (ctx, some e) => .err e .AFTER_PIPE ctx
      | (ctx, none) => .cont .AFTER_PIPE ctx
    else if c = '\r' then
      match add_field ctx "" with
      | (ctx, some e) => .err e .AFTER_CR ctx
      | (ctx, none) => .cont .AFTER_CR ctx
    else if c = '\n' then
      match add_field ctx "" with
      | (ctx, some e) => .err e .AFTER_PIPE ctx
      | (ctx, none) =>
        match complete_record ctx with
        | .error e => .err e .AFTER_PIPE ctx
        | .ok (r, ctx, st) =>
          .emit r st { ctx with line := ctx.line + 1, in_record := false }
    else
      .cont .FIELD { ctx with current_field := [c], field_length := 1 }
  | .AFTER_CR =>
    if c = '\n' then
      match (if ctx.current_field ≠ [] then
               add_field ctx (complete_field ctx.current_field)
             else (ctx, none)) with
      | (ctx, some e) => .err e .AFTER_CR ctx
      | (ctx, none) =>
        match complete_record ctx with
        | .error e => .err e .AFTER_CR ctx
        | .ok (r, ctx, st) =>
          .emit r st { ctx with line := ctx.line + 1, in_record := false }
    else
      .cont .FIELD
        { ctx with current_field := ctx.current_field ++ ['\r', c],
                   field_length := ctx.field_length + 2 }

/-- The end-of-stream handling of `__next__` (reader.py lines 135-144):
clean stop in `START` with no fields, lenient completion in `FIELD`,
`StopIteration` otherwise. -/
def eofResult (state : ParserState) (ctx : ParserContext) : NextResult :=
  if state = .START ∧ ctx.fields = [] then
    .stop ⟨ctx, state, []⟩
  else if state = .FIELD then
    match add_field ctx (complete_field ctx.current_field) with
    | (ctx, some e) => .error e ⟨ctx, .FIELD, []⟩
    | (ctx, none) =>
      match complete_record ctx with
      | .error e => .error e ⟨ctx, .FIELD, []⟩
      | .ok (r, ctx, st) => .record r ⟨ctx, st, []⟩
  else
    .stop ⟨ctx, state, []⟩

/-- The `while True` loop of `__next__`: one `step` per character until a
record is returned, an error is raised, or the input ends. -/
def loop : List Char → ParserState → ParserContext → NextResult
  | [], state, ctx => eofResult state ctx
  | c :: rest, state, ctx =>
    match step c state ctx with
    | .cont st ctx => loop rest st ctx
    | .emit r st ctx => .record r ⟨ctx, st, rest⟩
    | .err e st ctx => .error e ⟨ctx, st, rest⟩

/-- `PullParser.__next__`: re-raise a stored error, else run the loop.
(No code path of reader.py ever stores an error into `ctx.error`.) -/
def next (p : Parser) : NextResult :=
  match p.ctx.error with
  | some e => .error e p
  | none => loop p.input p.state p.ctx

/-- `ParserContext.__init__`. -/
def initContext : ParserContext :=
  { current_field := [], fields := [], field_length := 0, field_count := 0,
    line := 1, column := 1, record_start_line := 1, error := none,
    in_record := false }

/-- A fresh `PullParser` on the given character stream. -/
def initParser (input : List Char) : Parser :=
  ⟨initContext, .START, input⟩

/-- The characters of a string, as the parser consumes them. -/
def strIn (s : String) : List Char := s.data

/-- The record of a `record` result. -/
def NextResult.record? : NextResult → Option Record
  | .record r _ => some r
  | _ => none

/-- The error of an `error` result. -/
def NextResult.err? : NextResult → Option ParseError
  | .error e _ => some e
  | _ => none

/-- The parser object left behind by an `error` result. -/
def NextResult.afterError? : NextResult → Option Parser
  | .error _ p => some p
  | _ => none

/-- Iterating the parser the way a `for record in parser` loop does:
collect records until `StopIteration` or the first raised `ParseError`.
The fuel argument only bounds the number of `__next__` calls; each call
past the first consumes input, so `input.length + 2` calls always
suffice. -/
def parseAllAux : Nat → Parser → List Record × Option ParseError
  | 0, _ => ([], none)
  | fuel + 1, p =>
    match next p with
    | .record r p' =>
      let (rs, e?) := parseAllAux fuel p'
      (r :: rs, e?)
    | .error e _ => ([], some e)
    | .stop _ => ([], none)

/-- All records (and the terminating error, if any) of an input stream. -/
def parseAll (input : List Char) : List Record × Option ParseError :=
  parseAllAux (input.length + 2) (initParser input)

/-! ## Writer transaction (src/src/wdlp/writer.py)

The writer is modelled at the level its atomicity protocol acts on: the
content of the temporary file and the content at the final destination
path.  A value written into a record is abstracted to its Python type tag,
which is all `JSONLWriter.write`'s pre-serialization check inspects; the
content of the temporary file is modelled as the list of records
serialized into it so far. -/

/-- The Python type tag of a value placed in a record.  `obj` stands for
any instance of a type outside
`(str, int, float, bool, date, dict, list, NoneType)` — the tuple tested
by `JSONLWriter.write`. -/
inductive PyVal where
  | str : String → PyVal
  | int : Int → PyVal
  | float : PyVal
  | bool : Bool → PyVal
  | date : Nat → Nat → Nat → PyVal
  | dict : PyVal
  | list : PyVal
  | pynone : PyVal
  | obj : PyVal
deriving DecidableEq

/-- A record handed to `write`: a dict from string keys to values. -/
structure PyRecord where
  entries : List (String × PyVal)
deriving DecidableEq

/-- The isinstance check of `JSONLWriter.write` lines 117-119: every value
must be a str, int, float, bool, date, dict, list or None. -/
def jsonlSupported : PyVal → Bool
  | .obj => false
  | _ => true

/-- A record passes `JSONLWriter.write`'s validation when all its values
are of supported types (keys are strings by construction here). -/
def recordSupported (r : PyRecord) : Bool :=
  r.entries.all (fun kv => jsonlSupported kv.2)

/-- The mutable state of a `JSONLWriter` between calls: `temp` is
`_temp_file` with the records serialized into it so far (`none` before
`__enter__` / after `__exit__`), `error_state` is `_error_state`. -/
structure WriterSt where
  temp : Option (List PyRecord)
  error_state : Bool
deriving DecidableEq

/-- The filesystem as the writer observes it: the content at the final
destination path (`none` = the file does not exist). -/
structure FS where
  dest : Option (List PyRecord)
deriving DecidableEq

/-- `JSONLWriter.write`: fail when not inside a context manager, fail when
already in the error state, fail (entering the error state) on an
unsupported value, else append the serialized record to the temporary
file.  The `Bool` is whether a `WriterError` was raised. -/
def jsonlWrite (w : WriterSt) (r : PyRecord) : WriterSt × Bool :=
  match w.temp with
  | none => ({ w with error_state := true }, true)
  | some content =>
    if w.error_state then (w, true)
    else if recordSupported r then
      ({ w with temp := some (content ++ [r]) }, false)
    else ({ w with error_state := true }, true)

/-- `AbstractWriter.__enter__`: refuse a writer already in the error state,
else create the (empty) temporary file. -/
def writerEnter (w : WriterSt) : WriterSt × Bool :=
  if w.error_state then (w, true)
  else ({ w with temp := some [] }, false)

/-- `AbstractWriter.__exit__` with `excPresent` = whether an exception is
propagating out of the block (`exc_type is not None`).  For the JSONL
writer `_writer` is `None`, so `_close_writer` is skipped; with a
temporary file present, no exception commits it onto the destination
(`os.replace`) and an exception unlinks it, leaving the destination
untouched; the `finally` clause clears the temporary file either way. -/
def writerExit (w : WriterSt) (fs : FS) (excPresent : Bool) : WriterSt × FS :=
  match w.temp with
  | none => ({ w with temp := none }, fs)
  | some content =>
    if excPresent then ({ w with temp := none }, fs)
    else ({ w with temp := none }, { dest := some content })

/-- The body of a `with`-block writing the given records in order,
stopping at the first raised `WriterError` (the `Bool`). -/
def writeAll (w : WriterSt) : List PyRecord → WriterSt × Bool
  | [] => (w, false)
  | r :: rs =>
    match jsonlWrite w r with
    | (w', true) => (w', true)
    | (w', false) => writeAll w' rs

/-- One whole writer transaction on a fresh `JSONLWriter`: enter, write
the records until the first failure, and close the block.  `swallow` is
whether the caller catches the `WriterError` inside the block (so the
block exits normally) instead of letting it propagate. -/
def runTxn (records : List PyRecord) (swallow : Bool) (fs : FS) : FS :=
  match writerEnter ⟨none, false⟩ with
  | (_, true) => fs
  | (w, false) =>
    let (w', errored) := writeAll w records
    (writerExit w' fs (errored && !swallow)).2

/-! ## Temporary-file allocation directory (claim C8)

`src/src/wdlp/writer.py` `AbstractWriter.__enter__` calls
`tempfile.NamedTemporaryFile(mode=..., suffix=..., delete=False)` with no
`dir` argument; `src/src/writer/writers.py` `AbstractWriter.__enter__`
calls `tempfile.NamedTemporaryFile(delete=False, dir=os.path.dirname(self.output_path))`. -/

/-- `os.path.dirname` (posixpath): everything up to the last slash, with
trailing slashes stripped unless the head is all slashes. -/
def lastSlashIdx : List Char → Option Nat
  | [] => none
  | c :: rest =>
    match lastSlashIdx rest with
    | some i => some (i + 1)
    | none => if c = '/' then some 0 else none

/-- `os.path.dirname` on a path string. -/
def dirname (p : String) : String :=
  match lastSlashIdx p.data with
  | none => ""
  | some i =>
    let head := p.data.take (i + 1)
    if head.all (· = '/') then String.mk head
    else String.mk ((head.reverse.dropWhile (· = '/')).reverse)

/-- `tempfile.NamedTemporaryFile`: the directory the temporary file is
created in — the `dir` argument when given, else the system default
temporary directory. -/
def tempAllocDir (dirArg : Option String) (sysTempDir : String) : String :=
  dirArg.getD sysTempDir

/-- The `dir` argument `src/src/wdlp/writer.py`'s `__enter__` passes:
none. -/
def wdlpEnterDirArg : Option String := none

/-- The `dir` argument `src/src/writer/writers.py`'s `__enter__` passes:
the directory of the output path. -/
def writersEnterDirArg (output_path : String) : Option String :=
  some (dirname output_path)

/-! ## Mapper (src/src/wdlp/mapper.py, schemas in src/src/wdlp/schema.py) -/

/-- A `datetime.date`, as produced by `date(year, month, day)`. -/
structure PyDate where
  year : Int
  month : Int
  day : Int
deriving DecidableEq

/-- Day count of a month, for `datetime.date`'s validity check. -/
def daysInMonth (year month : Int) : Int :=
  if month = 2 then
    if year % 4 = 0 ∧ (year % 100 ≠ 0 ∨ year % 400 = 0) then 29 else 28
  else if month = 4 ∨ month = 6 ∨ month = 9 ∨ month = 11 then 30
  else 31

/-- `datetime.date(y, m, d)`: raises `ValueError` (here `none`) outside
`MINYEAR..MAXYEAR` or for an invalid month/day. -/
def mkDate (y m d : Int) : Option PyDate :=
  if 1 ≤ y ∧ y ≤ 9999 ∧ 1 ≤ m ∧ m ≤ 12 ∧ 1 ≤ d ∧ d ≤ daysInMonth y m then
    some ⟨y, m, d⟩
  else none

/-- Date comparison, for the `status_date` not-in-the-future validator. -/
def dateLe (a b : PyDate) : Bool :=
  if a.year ≠ b.year then a.year ≤ b.year
  else if a.month ≠ b.month then a.month ≤ b.month
  else a.day ≤ b.day

/-- Value of a non-empty all-digit character list. -/
def digitsVal (cs : List Char) : Option Nat :=
  if cs ≠ [] ∧ cs.all Char.isDigit then
    some (cs.foldl (fun a c => a * 10 + (c.toNat - 48)) 0)
  else none

/-- Models CPython `int(s)` for base 10: optional surrounding spaces, an
optional sign, then one or more ASCII digits (digit grouping with
underscores, unicode digits and other whitespace are not used by this
repository's inputs and are not modelled). -/
def pyInt (s : String) : Option Int :=
  let cs := ((s.data.dropWhile (· = ' ')).reverse.dropWhile (· = ' ')).reverse
  match cs with
  | '-' :: ds => (digitsVal ds).map (fun n => -(n : Int))
  | '+' :: ds => (digitsVal ds).map (fun n => (n : Int))
  | ds => (digitsVal ds).map (fun n => (n : Int))

/-- `get_field` as defined inside `AMMapper.__call__` and
`ENMapper.__call__`: `fields[index]` when the index is in range and the
value is truthy (a non-empty string), else the `None` default. -/
def get_field (fields : List String) (index : Nat) : Option String :=
  match fields.get? index with
  | some s => if s = "" then none else some s
  | none => none

/-- Why a mapping attempt raised; stands for the `received` message of
`MapperError` (`f"Error: {e}"` over the triggering `ValueError` /
pydantic `ValidationError`). -/
inductive MapFailCause where
  | invalidRecordType
  | insufficientFields
  | invalidSystemId : String → MapFailCause
  | intParseFailed : String → MapFailCause
  | invalidStatusDate : String → MapFailCause
  | validationFailed
deriving DecidableEq

/-- `MapperError` of mapper.py: the offending record, the `expected`
text, and the cause standing for the `received` text. -/
structure MapperError where
  record : Record
  expected : String
  cause : MapFailCause
deriving DecidableEq

/-- `AMRecord` of schema.py: all fields optional. -/
structure AMRecord where
  record_type : Option String
  system_id : Option Int
  uls_file_number : Option String
  ebf_number : Option String
  call_sign : Option String
  operator_class : Option String
  group_code : Option String
  region_code : Option Int
  trustee_call_sign : Option String
  trustee_indicator : Option String
  physician_certification : Option String
  ve_signature : Option String
  systematic_call_sign_change : Option String
  vanity_call_sign_change : Option String
  vanity_relationship : Option String
  previous_call_sign : Option String
  previous_operator_class : Option String
  trustee_name : Option String
deriving DecidableEq

/-- A pydantic `Optional[str]` length constraint: checked only when the
value is present. -/
def optLenLe (v : Option String) (n : Nat) : Bool :=
  match v with
  | none => true
  | some s => s.length ≤ n

/-- `min_length=1, max_length=1`. -/
def optLen1 (v : Option String) : Bool :=
  match v with
  | none => true
  | some s => s.length = 1

/-- A pydantic `Optional[int]` range constraint (`ge`/`le`). -/
def optIntRange (v : Option Int) (lo hi : Int) : Bool :=
  match v with
  | none => true
  | some n => lo ≤ n ∧ n ≤ hi

/-- The field constraints of pydantic model `AMRecord` (schema.py lines
12-42), applied at construction.  A `none` value always passes: pydantic
skips constraints on absent optional fields. -/
def amValid (t : AMRecord) : Bool :=
  (match t.record_type with | none => true | some s => s = "AM") &&
  optIntRange t.system_id 0 999999999 &&
  optLenLe t.uls_file_number 14 &&
  optLenLe t.ebf_number 30 &&
  optLenLe t.call_sign 10 &&
  optLen1 t.operator_class &&
  optLen1 t.group_code &&
  optIntRange t.region_code 0 255 &&
  optLenLe t.trustee_call_sign 10 &&
  optLen1 t.trustee_indicator &&
  optLen1 t.physician_certification &&
  optLen1 t.ve_signature &&
  optLen1 t.systematic_call_sign_change &&
  optLen1 t.vanity_call_sign_change &&
  optLenLe t.vanity_relationship 12 &&
  optLenLe t.previous_call_sign 10 &&
  optLen1 t.previous_operator_class &&
  optLenLe t.trustee_name 50

/-- The `AMRecord(...)` keyword arguments of `AMMapper.__call__` lines
58-77, before pydantic validation: each one a `get_field` read except the
two pre-parsed integers. -/
def amCandidate (fields : List String) (system_id region_code : Option Int) : AMRecord :=
  { record_type := get_field fields 0
    system_id := system_id
    uls_file_number := get_field fields 2
    ebf_number := get_field fields 3
    call_sign := get_field fields 4
    operator_class := get_field fields 5
    group_code := get_field fields 6
    region_code := region_code
    trustee_call_sign := get_field fields 8
    trustee_indicator := get_field fields 9
    physician_certification := get_field fields 10
    ve_signature := get_field fields 11
    systematic_call_sign_change := get_field fields 12
    vanity_call_sign_change := get_field fields 13
    vanity_relationship := get_field fields 14
    previous_call_sign := get_field fields 15
    previous_operator_class := get_field fields 16
    trustee_name := get_field fields 17 }

/-- `AMMapper.__call__`. -/
def mapAM (r : Record) : Except MapperError AMRecord :=
  if r.fields = [] ∨ r.fields.get? 0 ≠ some "AM" then
    .error ⟨r, "Valid Amateur License record fields", .invalidRecordType⟩
  else if r.fields.length < 2 then
    .error ⟨r, "Valid Amateur License record fields", .insufficientFields⟩
  else
    match (match get_field r.fields 1 with
           | some s =>
             (match pyInt s with
              | some v => Except.ok (some v)
              | none => Except.error (MapFailCause.invalidSystemId s))
           | none => Except.ok none : Except MapFailCause (Option Int)) with
    | .error c => .error ⟨r, "Valid Amateur License record fields", c⟩
    | .ok system_id =>
      match (match get_field r.fields 7 with
             | some s =>
               (match pyInt s with
                | some v => Except.ok (some v)
                | none => Except.error (MapFailCause.intParseFailed s))
             | none => Except.ok none : Except MapFailCause (Option Int)) with
      | .error c => .error ⟨r, "Valid Amateur License record fields", c⟩
      | .ok region_code =>
        if amValid (amCandidate r.fields system_id region_code) then
          .ok (amCandidate r.fields system_id region_code)
        else .error ⟨r, "Valid Amateur License record fields", .validationFailed⟩

/-- The presence (`is not None`) of the component of `AMRecord` at each
schema position 0..17, in the mapper's positional order. -/
def amFieldPresent (t : AMRecord) : Nat → Bool
  | 0 => t.record_type.isSome
  | 1 => t.system_id.isSome
  | 2 => t.uls_file_number.isSome
  | 3 => t.ebf_number.isSome
  | 4 => t.call_sign.isSome
  | 5 => t.operator_class.isSome
  | 6 => t.group_code.isSome
  | 7 => t.region_code.isSome
  | 8 => t.trustee_call_sign.isSome
  | 9 => t.trustee_indicator.isSome
  | 10 => t.physician_certification.isSome
  | 11 => t.ve_signature.isSome
  | 12 => t.systematic_call_sign_change.isSome
  | 13 => t.vanity_call_sign_change.isSome
  | 14 => t.vanity_relationship.isSome
  | 15 => t.previous_call_sign.isSome
  | 16 => t.previous_operator_class.isSome
  | 17 => t.trustee_name.isSome
  | _ => false

/-- `ENRecord` of schema.py: all fields optional. -/
structure ENRecord where
  record_type : Option String
  system_id : Option Int
  uls_file_number : Option String
  ebf_number : Option String
  call_sign : Option String
  entity_type : Option String
  licensee_id : Option String
  entity_name : Option String
  first_name : Option String
  mi : Option String
  last_name : Option String
  suffix : Option String
  phone : Option String
  fax : Option String
  email : Option String
  street_address : Option String
  city : Option String
  state : Option String
  zip_code : Option String
  po_box : Option String
  attention_line : Option String
  sgin : Option String
  frn : Option String
  applicant_type_code : Option String
  applicant_type_code_other : Option String
  status_code : Option String
  status_date : Option PyDate
  license_type : Option String
  linked_system_id : Option Int
  linked_call_sign : Option String
deriving DecidableEq

/-- The `ENTITY_TYPES` literal of schema.py. -/
def ENTITY_TYPES : List String :=
  ["I", "B", "G", "M", "R", "A", "C", "D", "L", "O", "P"]

/-- The `PHONE_PATTERN` regex `^\d{3}-\d{3}-\d{4}$`. -/
def phoneMatch (s : String) : Bool :=
  match s.data with
  | [a, b, c, h1, d, e, f, h2, g, h, i, j] =>
    h1 = '-' && h2 = '-' && [a, b, c, d, e, f, g, h, i, j].all Char.isDigit
  | _ => false

/-- Python `str.split(sep)` for a one-character separator: splits at every
occurrence, keeping empty parts (`"a//b"` → `["a", "", "b"]`, `""` →
`[""]`). -/
def splitOnChar (sep : Char) : List Char → List (List Char)
  | [] => [[]]
  | c :: rest =>
    match splitOnChar sep rest with
    | [] => if c = sep then [[], []] else [[c]]
    | g :: gs => if c = sep then [] :: g :: gs else (c :: g) :: gs

/-- Models pydantic `EmailStr` at this external library's boundary: a
non-empty local part, one `@`, and a non-empty domain.  (The claims below
never exercise a present email value.) -/
def emailValid (s : String) : Bool :=
  match splitOnChar '@' s.data with
  | [l, d] => l ≠ [] && d ≠ []
  | _ => false

/-- The field constraints and validators of pydantic model `ENRecord`
(schema.py lines 44-126), checked against the given `today` for the
`status_date` not-in-the-future validator. -/
def enValid (today : PyDate) (t : ENRecord) : Bool :=
  (match t.record_type with | none => true | some s => s = "EN") &&
  optIntRange t.system_id 0 999999999 &&
  optLenLe t.uls_file_number 14 &&
  optLenLe t.ebf_number 30 &&
  optLenLe t.call_sign 10 &&
  (match t.entity_type with | none => true | some s => ENTITY_TYPES.contains s) &&
  optLenLe t.licensee_id 9 &&
  optLenLe t.entity_name 200 &&
  optLenLe t.first_name 20 &&
  optLen1 t.mi &&
  optLenLe t.last_name 20 &&
  optLenLe t.suffix 3 &&
  (match t.phone with | none => true | some s => s.length ≤ 12 && phoneMatch s) &&
  optLenLe t.fax 10 &&
  (match t.email with | none => true | some s => s.length ≤ 50 && emailValid s) &&
  optLenLe t.street_address 60 &&
  optLenLe t.city 20 &&
  (match t.state with | none => true | some s => s.length = 2) &&
  optLenLe t.zip_code 9 &&
  optLenLe t.po_box 20 &&
  optLenLe t.attention_line 35 &&
  optLenLe t.sgin 3 &&
  optLenLe t.frn 10 &&
  optLen1 t.applicant_type_code &&
  optLenLe t.applicant_type_code_other 40 &&
  optLen1 t.status_code &&
  (match t.status_date with | none => true | some d => dateLe d today) &&
  optLen1 t.license_type &&
  optIntRange t.linked_system_id 0 999999999 &&
  optLenLe t.linked_call_sign 10

/-- The phone reformatting of `ENMapper.__call__` lines 99-101: a present
10-character value is re-punctuated as `XXX-XXX-XXXX`. -/
def formatPhone (p : Option String) : Option String :=
  match p with
  | none => none
  | some s =>
    if s.length = 10 then
      some (String.mk (s.data.take 3) ++ "-" ++ String.mk ((s.data.drop 3).take 3)
            ++ "-" ++ String.mk (s.data.drop 6))
    else some s

/-- The `status_date` parsing of `ENMapper.__call__` lines 104-111:
`month, day, year = date_str.split('/')` then `date(int(y), int(m), int(d))`;
any `ValueError` on the way (wrong part count, non-integer part, invalid
date) is re-raised as an invalid-format error. -/
def parseStatusDate (s : Option String) : Except MapFailCause (Option PyDate) :=
  match s with
  | none => .ok none
  | some ds =>
    match (splitOnChar '/' ds.data).map String.mk with
    | [ms, dds, ys] =>
      match pyInt ys, pyInt ms, pyInt dds with
      | some y, some m, some d =>
        match mkDate y m d with
        | some dt => .ok (some dt)
        | none => .error (.invalidStatusDate ds)
      | _, _, _ => .error (.invalidStatusDate ds)
    | _ => .error (.invalidStatusDate ds)

/-- The `ENRecord(...)` keyword arguments of `ENMapper.__call__` lines
113-144, before pydantic validation. -/
def enCandidate (fields : List String)
    (system_id linked_system_id : Option Int) (status_date : Option PyDate) : ENRecord :=
  { record_type := get_field fields 0
    system_id := system_id
    uls_file_number := get_field fields 2
    ebf_number := get_field fields 3
    call_sign := get_field fields 4
    entity_type := get_field fields 5
    licensee_id := get_field fields 6
    entity_name := get_field fields 7
    first_name := get_field fields 8
    mi := get_field fields 9
    last_name := get_field fields 10
    suffix := get_field fields 11
    phone := formatPhone (get_field fields 12)
    fax := get_field fields 13
    email := get_field fields 14
    street_address := get_field fields 15
    city := get_field fields 16
    state := get_field fields 17
    zip_code := get_field fields 18
    po_box := get_field fields 19
    attention_line := get_field fields 20
    sgin := get_field fields 21
    frn := get_field fields 22
    applicant_type_code := get_field fields 23
    applicant_type_code_other := get_field fields 24
    status_code := get_field fields 25
    status_date := status_date
    license_type := get_field fields 27
    linked_system_id := linked_system_id
    linked_call_sign := get_field fields 29 }

/-- `ENMapper.__call__`, with `today` the day pydantic's `status_date`
validator compares against. -/
def mapEN (today : PyDate) (r : Record) : Except MapperError ENRecord :=
  match (match get_field r.fields 1 with
         | some s =>
           (match pyInt s with
            | some v => Except.ok (some v)
            | none => Except.error (MapFailCause.intParseFailed s))
         | none => Except.ok none : Except MapFailCause (Option Int)) with
  | .error c => .error ⟨r, "Valid Entity record fields", c⟩
  | .ok system_id =>
    match (match get_field r.fields 28 with
           | some s =>
             (match pyInt s with
              | some v => Except.ok (some v)
              | none => Except.error (MapFailCause.intParseFailed s))
           | none => Except.ok none : Except MapFailCause (Option Int)) with
    | .error c => .error ⟨r, "Valid Entity record fields", c⟩
    | .ok linked_system_id =>
      match parseStatusDate (get_field r.fields 26) with
      | .error c => .error ⟨r, "Valid Entity record fields", c⟩
      | .ok status_date =>
        if enValid today (enCandidate r.fields system_id linked_system_id status_date) then
          .ok (enCandidate r.fields system_id linked_system_id status_date)
        else .error ⟨r, "Valid Entity record fields", .validationFailed⟩

/-- The presence of the component of `ENRecord` at each schema position
0..29, in the mapper's positional order. -/
def enFieldPresent (t : ENRecord) : Nat → Bool
  | 0 => t.record_type.isSome
  | 1 => t.system_id.isSome
  | 2 => t.uls_file_number.isSome
  | 3 => t.ebf_number.isSome
  | 4 => t.call_sign.isSome
  | 5 => t.entity_type.isSome
  | 6 => t.licensee_id.isSome
  | 7 => t.entity_name.isSome
  | 8 => t.first_name.isSome
  | 9 => t.mi.isSome
  | 10 => t.last_name.isSome
  | 11 => t.suffix.isSome
  | 12 => t.phone.isSome
  | 13 => t.fax.isSome
  | 14 => t.email.isSome
  | 15 => t.street_address.isSome
  | 16 => t.city.isSome
  | 17 => t.state.isSome
  | 18 => t.zip_code.isSome
  | 19 => t.po_box.isSome
  | 20 => t.attention_line.isSome
  | 21 => t.sgin.isSome
  | 22 => t.frn.isSome
  | 23 => t.applicant_type_code.isSome
  | 24 => t.applicant_type_code_other.isSome
  | 25 => t.status_code.isSome
  | 26 => t.status_date.isSome
  | 27 => t.license_type.isSome
  | 28 => t.linked_system_id.isSome
  | 29 => t.linked_call_sign.isSome
  | _ => false

/-! ## Helper lemmas about the parser loop -/

/-- Unfolding one iteration of the `__next__` loop. -/
theorem loop_cons (c : Char) (rest : List Char) (state : ParserState) (ctx : ParserContext) :
    loop (c :: rest) state ctx =
      match step c state ctx with
      | .cont st ctx' => loop rest st ctx'
      | .emit r st ctx' => .record r ⟨ctx', st, rest⟩
      | .err e st ctx' => .error e ⟨ctx', st, rest⟩ := rfl

/-- In `FIELD`, an ordinary character below the length limit is appended
to the accumulation buffer. -/
theorem step_field_plain (c : Char) (ctx : ParserContext)
    (hn : c ≠ '\n') (hr : c ≠ '\r') (hp : c ≠ '|')
    (hlen : ctx.field_length < MAX_FIELD_LENGTH) :
    step c .FIELD ctx =
      .cont .FIELD { ctx with
                     column := ctx.column + 1,
                     current_field := ctx.current_field ++ [c],
                     field_length := ctx.field_length + 1 } := by
  simp [step, hn, hr, hp, Nat.not_le.mpr hlen]

/-- Consuming a run of `n` ordinary characters in `FIELD` appends them all,
as long as the length limit is not reached. -/
theorem loop_field_run (c : Char) (hn : c ≠ '\n') (hr : c ≠ '\r') (hp : c ≠ '|') :
    ∀ (n : Nat) (ctx : ParserContext) (rest : List Char),
      ctx.field_length + n ≤ MAX_FIELD_LENGTH →
      loop (List.replicate n c ++ rest) .FIELD ctx =
        loop rest .FIELD
          { ctx with
            column := ctx.column + n,
            current_field := ctx.current_field ++ List.replicate n c,
            field_length := ctx.field_length + n }
  | 0, ctx, rest, _ => by simp
  | n + 1, ctx, rest, h => by
    rw [List.replicate_succ, List.cons_append, loop_cons,
        step_field_plain c ctx hn hr hp (by omega)]
    show loop (List.replicate n c ++ rest) .FIELD _ = _
    rw [loop_field_run c hn hr hp n _ rest (by simp; omega)]
    have h1 : ctx.column + 1 + n = ctx.column + (n + 1) := by omega
    have h2 : ctx.field_length + 1 + n = ctx.field_length + (n + 1) := by omega
    simp [h1, h2, List.replicate_succ]

/-- The length of a string built from a character list. -/
theorem mk_length (l : List Char) : (String.mk l).length = l.length :=
  List.length_asString l

/-- In `FIELD`, a carriage return only switches to `AFTER_CR`. -/
theorem step_field_cr (ctx : ParserContext) :
    step '\r' .FIELD ctx = .cont .AFTER_CR { ctx with column := ctx.column + 1 } := by
  simp [step]

/-- In `AFTER_CR`, a character other than LF re-inserts the carriage
return and the character into the field, with no length check. -/
theorem step_after_cr_other (c : Char) (ctx : ParserContext) (hn : c ≠ '\n') :
    step c .AFTER_CR ctx =
      .cont .FIELD { ctx with
                     column := ctx.column + 1,
                     current_field := ctx.current_field ++ ['\r', c],
                     field_length := ctx.field_length + 2 } := by
  simp [step, hn]

/-- In `FIELD` with no completed fields yet, a line feed completes the
(single-field) record. -/
theorem step_field_newline_first (ctx : ParserContext)
    (hf : ctx.fields = []) (hc : ctx.field_count = 0) :
    step '\n' .FIELD ctx =
      .emit ⟨ctx.record_start_line, [complete_field ctx.current_field]⟩ .START
        { ctx with
          column := 1, current_field := [], fields := [], field_length := 0,
          field_count := 0, line := ctx.line + 1, in_record := false } := by
  simp [step, add_field, complete_record, hf, hc, MAX_FIELDS]

/-- In `FIELD` at the length limit, an ordinary character raises the
field-length `ParseError`. -/
theorem step_field_at_limit (c : Char) (ctx : ParserContext)
    (hn : c ≠ '\n') (hr : c ≠ '\r') (hp : c ≠ '|')
    (hlen : ctx.field_length = MAX_FIELD_LENGTH) :
    step c .FIELD ctx =
      .err { line := ctx.line, column := ctx.column + 1 - 1,
             expected := "field length <= " ++ toString MAX_FIELD_LENGTH,
             received := toString (ctx.field_length + 1),
             consumed_fields := ctx.fields,
             part_field := complete_field ctx.current_field,
             context := "Field length constraint violation" }
        .FIELD { ctx with column := ctx.column + 1 } := by
  simp [step, hn, hr, hp, hlen]

/-- Composing one loop iteration with a known `cont` step. -/
theorem loop_step_cont {c : Char} {state : ParserState} {ctx : ParserContext}
    {st : ParserState} {ctx' : ParserContext}
    (h : step c state ctx = .cont st ctx') (rest : List Char) :
    loop (c :: rest) state ctx = loop rest st ctx' := by
  rw [loop_cons, h]

/-- Composing one loop iteration with a known `emit` step. -/
theorem loop_step_emit {c : Char} {state : ParserState} {ctx : ParserContext}
    {r : Record} {st : ParserState} {ctx' : ParserContext}
    (h : step c state ctx = .emit r st ctx') (rest : List Char) :
    loop (c :: rest) state ctx = .record r ⟨ctx', st, rest⟩ := by
  rw [loop_cons, h]

/-- Composing one loop iteration with a known `err` step. -/
theorem loop_step_err {c : Char} {state : ParserState} {ctx : ParserContext}
    {e : ParseError} {st : ParserState} {ctx' : ParserContext}
    (h : step c state ctx = .err e st ctx') (rest : List Char) :
    loop (c :: rest) state ctx = .error e ⟨ctx', st, rest⟩ := by
  rw [loop_cons, h]

/-- `_complete_field` keeps the buffer as-is when it ends neither in LF
nor in CR. -/
theorem complete_field_no_strip (cf : List Char)
    (h1 : cf.getLast? ≠ some '\n') (h2 : cf.getLast? ≠ some '\r') :
    complete_field cf = String.mk cf := by
  simp [complete_field, h1, h2]

/-! ## Claim C6 — lenient EOF mid-field -/

/-- C6: whenever the stream ends while the parser is mid-field (state
`FIELD`), the accumulated field content is finalized and appended to the
completed fields, and the record is returned — for every context whose
completed-field count is still below `MAX_FIELDS` (at the limit,
`_add_field` raises its count error instead, as it would on a terminator
too).  In particular `AM|123` with no trailing newline yields exactly one
record with fields `["AM", "123"]`. -/
theorem c6_eof_mid_field_completes :
    (∀ ctx : ParserContext, ctx.field_count < MAX_FIELDS →
        eofResult .FIELD ctx =
          .record
            ⟨ctx.record_start_line, ctx.fields ++ [complete_field ctx.current_field]⟩
            ⟨{ ctx with
               current_field := [], fields := [], field_length := 0,
               field_count := 0 }, .START, []⟩) ∧
    parseAll (strIn "AM|123") = ([⟨1, ["AM", "123"]⟩], none) := by
  refine ⟨fun ctx hcount => ?_, rfl⟩
  simp [eofResult, add_field, complete_record, Nat.not_lt.mpr hcount]

/-- Witness for C6's universal statement at the parser context reached at
the end of the stream `AM|123`. -/
theorem c6_eof_mid_field_completes_witness :
    eofResult .FIELD
      { current_field := ['1', '2', '3'], fields := ["AM"], field_length := 3,
        field_count := 1, line := 1, column := 7, record_start_line := 1,
        error := none, in_record := true } =
      .record ⟨1, ["AM", "123"]⟩
        ⟨{ current_field := [], fields := [], field_length := 0, field_count := 0,
           line := 1, column := 7, record_start_line := 1, error := none,
           in_record := true }, .START, []⟩ :=
  c6_eof_mid_field_completes.1
    { current_field := ['1', '2', '3'], fields := ["AM"], field_length := 3,
      field_count := 1, line := 1, column := 7, record_start_line := 1,
      error := none, in_record := true }
    (by decide)

/-! ## Claim C10 — CR re-insertion after a delimiter -/

/-- C10: whenever the parser is in `AFTER_PIPE` (below the field-count
limit, where `_add_field` would raise instead) and consumes a carriage
return followed by any character other than LF, it emits an empty field
for the carriage-return position and continues in `FIELD` with a new
field whose content is exactly the re-inserted CR and that character.  In
particular `a|\rx\n` parses to one record with the three fields
`["a", "", "\rx"]`. -/
theorem c10_cr_reinserted_after_delimiter :
    (∀ (ctx : ParserContext) (c : Char) (rest : List Char),
        ctx.field_count < MAX_FIELDS → c ≠ '\n' →
        loop ('\r' :: c :: rest) .AFTER_PIPE ctx =
          loop rest .FIELD
            { ctx with
              column := ctx.column + 2,
              fields := ctx.fields ++ [""],
              current_field := ['\r', c],
              field_length := 2,
              field_count := ctx.field_count + 1 }) ∧
    parseAll (strIn "a|\rx\n") = ([⟨1, ["a", "", "\rx"]⟩], none) := by
  refine ⟨fun ctx c rest hcount hn => ?_, rfl⟩
  have h1 : step '\r' .AFTER_PIPE ctx =
      .cont .AFTER_CR
        { ctx with
          column := ctx.column + 1,
          fields := ctx.fields ++ [""],
          current_field := [],
          field_length := 0,
          field_count := ctx.field_count + 1 } := by
    simp [step, add_field, Nat.not_lt.mpr hcount]
  rw [loop_step_cont h1, loop_step_cont (step_after_cr_other c _ hn)]
  rfl

/-- Witness for C10's universal statement at the parser context reached
after `a|` with `x` as the character following the carriage return. -/
theorem c10_cr_reinserted_after_delimiter_witness :
    loop ['\r', 'x', '\n'] .AFTER_PIPE
      { current_field := [], fields := ["a"], field_length := 0, field_count := 1,
        line := 1, column := 3, record_start_line := 1, error := none,
        in_record := true } =
      loop ['\n'] .FIELD
        { current_field := ['\r', 'x'], fields := ["a", ""], field_length := 2,
          field_count := 2, line := 1, column := 5, record_start_line := 1,
          error := none, in_record := true } :=
  c10_cr_reinserted_after_delimiter.1
    { current_field := [], fields := ["a"], field_length := 0, field_count := 1,
      line := 1, column := 3, record_start_line := 1, error := none,
      in_record := true }
    'x' ['\n'] (by decide) (by decide)

/-! ## Claim C4 — a delimiter in `START` -/

/-- C4 counterexample: on input `|a\n` the first `__next__` call raises a
`ParseError` (`Record must contain at least one field`) — it does not
produce the record `["", "a"]` the claim promises. -/
theorem c4_counterexample :
    (next (initParser (strIn "|a\n"))).record? = none ∧
    ((next (initParser (strIn "|a\n"))).err?).map ParseError.context =
      some "Record must contain at least one field" := by
  exact ⟨rfl, rfl⟩

/-- C4 (amended): in `START` with no fields accumulated (the situation at
every record boundary), a delimiter raises the minimum-one-field
`ParseError` instead of emitting an empty field, whatever the rest of the
input is. -/
theorem c4_start_delimiter_raises (ctx : ParserContext) (rest : List Char)
    (h : ctx.fields = []) :
    loop ('|' :: rest) .START ctx =
      .error
        { line := ctx.line, column := ctx.column + 1,
          expected := "minimum 1 field per record",
          received := "empty record", consumed_fields := [], part_field := "",
          context := "Record must contain at least one field" }
        ⟨{ ctx with column := ctx.column + 1 }, .START, rest⟩ := by
  have hstep : step '|' .START ctx =
      .err
        { line := ctx.line, column := ctx.column + 1,
          expected := "minimum 1 field per record",
          received := "empty record", consumed_fields := [], part_field := "",
          context := "Record must contain at least one field" }
        .START { ctx with column := ctx.column + 1 } := by
    simp [step, h]
  exact loop_step_err hstep rest

/-- Witness for C4's amended theorem on the concrete input `|a\n` from a
fresh parser. -/
theorem c4_start_delimiter_raises_witness :
    loop ('|' :: ['a', '\n']) .START initContext =
      .error
        { line := 1, column := 2, expected := "minimum 1 field per record",
          received := "empty record", consumed_fields := [], part_field := "",
          context := "Record must contain at least one field" }
        ⟨{ initContext with column := 2 }, .START, ['a', '\n']⟩ :=
  c4_start_delimiter_raises initContext ['a', '\n'] rfl

/-! ## Claim C5 — EOF in `AFTER_DELIMITER` -/

/-- C5 counterexample: on input `a|` (stream ends right after the
delimiter, a record in progress), iteration ends with no record and no
error: the in-progress record is dropped, not completed as `["a", ""]`. -/
theorem c5_counterexample :
    parseAll (strIn "a|") = ([], none) ∧
    (parseAll (strIn "a|")).1 ≠ [⟨1, ["a", ""]⟩] := by
  exact ⟨rfl, by decide⟩

/-- C5 (amended): when the stream ends in `AFTER_PIPE`, `__next__` raises
`StopIteration` for every context — no trailing empty field is emitted
and the record in progress is discarded (only a stream ending in `FIELD`
is completed leniently). -/
theorem c5_eof_after_pipe_stops :
    (∀ ctx : ParserContext, eofResult .AFTER_PIPE ctx = .stop ⟨ctx, .AFTER_PIPE, []⟩) ∧
    parseAll (strIn "a|") = ([], none) := by
  refine ⟨fun ctx => ?_, rfl⟩
  simp [eofResult]

/-! ## Claim C2 — behaviour after a `ParseError` -/

/-- C2: `__next__` raises a `ParseError` on `|b\n` at the leading
delimiter, leaves `ctx.error` unset (no code path ever stores the raised
error), and the very next `__next__` call on the same parser returns the
record `["b"]` — the parser resynchronizes instead of staying exhausted. -/
theorem c2_parse_error_not_terminal :
    ((next (initParser (strIn "|b\n"))).err?).isSome = true ∧
    ((next (initParser (strIn "|b\n"))).afterError?).map (fun p => p.ctx.error) =
      some none ∧
    ((next (initParser (strIn "|b\n"))).afterError?).map (fun p => (next p).record?) =
      some (some ⟨1, ["b"]⟩) := by
  exact ⟨rfl, rfl, rfl⟩

/-! ## Claim C1 — writer transaction atomicity -/

/-- C1 counterexample: with a fresh JSONL writer and no pre-existing
destination file, writing one good record and then one record holding an
unsupported value raises a `WriterError`; when the caller swallows the
error and exits the block normally, `__exit__` sees `exc_type is None`,
takes the commit branch, and renames the partial temporary file onto the
destination — the destination now holds the first record instead of
staying untouched. -/
theorem c1_counterexample :
    (writeAll { temp := some [], error_state := false }
        [⟨[("record_type", PyVal.str "AM")]⟩, ⟨[("ebf", PyVal.obj)]⟩]).2 = true ∧
    runTxn [⟨[("record_type", PyVal.str "AM")]⟩, ⟨[("ebf", PyVal.obj)]⟩] true ⟨none⟩ =
      ⟨some [⟨[("record_type", PyVal.str "AM")]⟩]⟩ ∧
    (⟨some [⟨[("record_type", PyVal.str "AM")]⟩]⟩ : FS) ≠ (⟨none⟩ : FS) := by
  refine ⟨rfl, rfl, by decide⟩

/-- C1 (amended): if some write of the transaction raises a `WriterError`
and the caller lets the exception propagate out of the context block, the
completion path takes the abort branch and the destination path is left
exactly in its pre-transaction state (whether or not it existed). -/
theorem c1_abort_branch_on_propagation (records : List PyRecord) (fs : FS)
    (h : (writeAll { temp := some [], error_state := false } records).2 = true) :
    runTxn records false fs = fs := by
  unfold runTxn
  rcases hw : writeAll { temp := some [], error_state := false } records with ⟨w', errored⟩
  rw [hw] at h
  simp only at h
  subst h
  simp only [writerEnter, Bool.false_eq_true, if_false, hw]
  rcases w' with ⟨temp, es⟩
  cases temp <;> simp [writerExit]

/-- Witness for C1's amended theorem at a concrete transaction: a single
record with an unsupported value, destination already holding content. -/
theorem c1_abort_branch_on_propagation_witness :
    runTxn [⟨[("x", PyVal.obj)]⟩] false ⟨some []⟩ = ⟨some []⟩ :=
  c1_abort_branch_on_propagation [⟨[("x", PyVal.obj)]⟩] ⟨some []⟩ rfl

/-! ## Claim C8 — temporary-file allocation directory -/

/-- C8 counterexample: the `wdlp` writers pass no `dir` argument, so with
system temporary directory `/tmp` and destination `/data/out/AM.jsonl`
the temporary file is created in `/tmp`, which is not the destination's
directory `/data/out`. -/
theorem c8_counterexample :
    tempAllocDir wdlpEnterDirArg "/tmp" = "/tmp" ∧
    dirname "/data/out/AM.jsonl" = "/data/out" ∧
    ("/tmp" : String) ≠ "/data/out" := by
  refine ⟨rfl, by decide, by decide⟩

/-- C8 (amended): the `src/src/writer/writers.py` revision allocates the
temporary file in the destination's own directory for every output path,
while the `src/src/wdlp/writer.py` writers allocate it in the system
default temporary directory, wherever that is. -/
theorem c8_temp_dir_allocation :
    (∀ (output_path sysTempDir : String),
        tempAllocDir (writersEnterDirArg output_path) sysTempDir = dirname output_path) ∧
    (∀ sysTempDir : String, tempAllocDir wdlpEnterDirArg sysTempDir = sysTempDir) :=
  ⟨fun _ _ => rfl, fun _ => rfl⟩

/-! ## Claim C3 — record invariants of returned records -/

/-- C3 (code bug): on input of 1024 `a`s followed by `\r`, `x`, `\n`, the
parser returns a record whose single field has 1026 characters — more
than `MAX_FIELD_LENGTH` — because the `AFTER_CR` re-insertion branch
appends two characters to the field with no length check. -/
theorem c3_overlong_field_returned :
    ((next (initParser (List.replicate 1024 'a' ++ ['\r', 'x', '\n']))).record?).map
      (fun r => r.fields.map String.length) = some [1026] := by
  have h0 : next (initParser (List.replicate 1024 'a' ++ ['\r', 'x', '\n'])) =
      loop (List.replicate 1024 'a' ++ ['\r', 'x', '\n']) .START initContext := rfl
  rw [h0, show (1024 : Nat) = 1023 + 1 from rfl, List.replicate_succ, List.cons_append]
  rw [loop_step_cont (show step 'a' .START initContext = .cont .FIELD
      { current_field := ['a'], fields := [], field_length := 1, field_count := 0,
        line := 1, column := 2, record_start_line := 1, error := none,
        in_record := true } from rfl)]
  rw [loop_field_run 'a' (by decide) (by decide) (by decide) 1023
      { current_field := ['a'], fields := [], field_length := 1, field_count := 0,
        line := 1, column := 2, record_start_line := 1, error := none,
        in_record := true }
      ['\r', 'x', '\n'] (by decide)]
  show ((loop ['\r', 'x', '\n'] .FIELD
      { current_field := 'a' :: List.replicate 1023 'a', fields := [],
        field_length := 1024, field_count := 0, line := 1, column := 1025,
        record_start_line := 1, error := none, in_record := true }).record?).map
      (fun r => r.fields.map String.length) = some [1026]
  rw [loop_step_cont (step_field_cr _)]
  rw [loop_step_cont (step_after_cr_other 'x' _ (by decide))]
  rw [loop_step_emit (step_field_newline_first _ rfl rfl)]
  have hlast : (('a' :: List.replicate 1023 'a') ++ ['\r', 'x']).getLast? = some 'x' := by
    rw [List.getLast?_append_cons]; rfl
  have hcf : complete_field (('a' :: List.replicate 1023 'a') ++ ['\r', 'x']) =
      String.mk (('a' :: List.replicate 1023 'a') ++ ['\r', 'x']) :=
    complete_field_no_strip _ (by rw [hlast]; decide) (by rw [hlast]; decide)
  simp only [NextResult.record?, Option.map_some', List.map_cons, List.map_nil, hcf,
             mk_length, List.length_append, List.length_cons, List.length_replicate,
             List.length_nil]

/-! ## Claim C7 — the 1024/1025 field-length boundary -/

/-- C7 (code bug): a plain field of exactly 1024 characters is accepted,
and a plain field reaching 1025 characters raises a `ParseError` with
`received = "1025"` and a 1024-character partial field — but a field can
also reach 1025 characters through the `AFTER_CR` re-insertion path, in
which case no `ParseError` is raised at all and the record is returned
with the overlong field. -/
theorem c7_limit_behaviour :
    (((next (initParser (List.replicate 1024 'x' ++ ['\n']))).record?).map
        (fun r => r.fields.map String.length) = some [1024]) ∧
    (((next (initParser (List.replicate 1025 'x'))).err?).map
        (fun e => (e.received, e.part_field.length)) = some ("1025", 1024)) ∧
    (((next (initParser (List.replicate 1023 'a' ++ ['\r', 'x', '\n']))).record?).map
        (fun r => r.fields.map String.length) = some [1025]) := by
  refine ⟨?_, ?_, ?_⟩
  · have h0 : next (initParser (List.replicate 1024 'x' ++ ['\n'])) =
        loop (List.replicate 1024 'x' ++ ['\n']) .START initContext := rfl
    rw [h0, show (1024 : Nat) = 1023 + 1 from rfl, List.replicate_succ, List.cons_append]
    rw [loop_step_cont (show step 'x' .START initContext = .cont .FIELD
        { current_field := ['x'], fields := [], field_length := 1, field_count := 0,
          line := 1, column := 2, record_start_line := 1, error := none,
          in_record := true } from rfl)]
    rw [loop_field_run 'x' (by decide) (by decide) (by decide) 1023
        { current_field := ['x'], fields := [], field_length := 1, field_count := 0,
          line := 1, column := 2, record_start_line := 1, error := none,
          in_record := true }
        ['\n'] (by decide)]
    show ((loop ['\n'] .FIELD
        { current_field := 'x' :: List.replicate 1023 'x', fields := [],
          field_length := 1024, field_count := 0, line := 1, column := 1025,
          record_start_line := 1, error := none, in_record := true }).record?).map
        (fun r => r.fields.map String.length) = some [1024]
    rw [loop_step_emit (step_field_newline_first _ rfl rfl)]
    have hlast : ('x' :: List.replicate 1023 'x').getLast? = some 'x' := by
      rw [show (1023 : Nat) = 1022 + 1 from rfl, List.replicate_succ',
          ← List.cons_append, List.getLast?_append_cons]
      rfl
    have hcf : complete_field ('x' :: List.replicate 1023 'x') =
        String.mk ('x' :: List.replicate 1023 'x') :=
      complete_field_no_strip _ (by rw [hlast]; decide) (by rw [hlast]; decide)
    simp only [NextResult.record?, Option.map_some', List.map_cons, List.map_nil, hcf,
               mk_length, List.length_cons, List.length_replicate]
  · have h0 : next (initParser (List.replicate 1025 'x')) =
        loop (List.replicate 1025 'x') .START initContext := rfl
    rw [h0, show (1025 : Nat) = 1024 + 1 from rfl, List.replicate_succ]
    rw [loop_step_cont (show step 'x' .START initContext = .cont .FIELD
        { current_field := ['x'], fields := [], field_length := 1, field_count := 0,
          line := 1, column := 2, record_start_line := 1, error := none,
          in_record := true } from rfl)]
    rw [show (1024 : Nat) = 1023 + 1 from rfl, List.replicate_succ']
    rw [loop_field_run 'x' (by decide) (by decide) (by decide) 1023
        { current_field := ['x'], fields := [], field_length := 1, field_count := 0,
          line := 1, column := 2, record_start_line := 1, error := none,
          in_record := true }
        ['x'] (by decide)]
    show ((loop ['x'] .FIELD
        { current_field := 'x' :: List.replicate 1023 'x', fields := [],
          field_length := 1024, field_count := 0, line := 1, column := 1025,
          record_start_line := 1, error := none, in_record := true }).err?).map
        (fun e => (e.received, e.part_field.length)) = some ("1025", 1023 + 1)
    rw [loop_step_err (step_field_at_limit 'x' _ (by decide) (by decide) (by decide) rfl)]
    have hlast : ('x' :: List.replicate 1023 'x').getLast? = some 'x' := by
      rw [show (1023 : Nat) = 1022 + 1 from rfl, List.replicate_succ',
          ← List.cons_append, List.getLast?_append_cons]
      rfl
    have hcf : complete_field ('x' :: List.replicate 1023 'x') =
        String.mk ('x' :: List.replicate 1023 'x') :=
      complete_field_no_strip _ (by rw [hlast]; decide) (by rw [hlast]; decide)
    simp only [NextResult.err?, Option.map_some', hcf, mk_length, List.length_cons,
               List.length_replicate]
    decide
  · have h0 : next (initParser (List.replicate 1023 'a' ++ ['\r', 'x', '\n'])) =
        loop (List.replicate 1023 'a' ++ ['\r', 'x', '\n']) .START initContext := rfl
    rw [h0, show (1023 : Nat) = 1022 + 1 from rfl, List.replicate_succ, List.cons_append]
    rw [loop_step_cont (show step 'a' .START initContext = .cont .FIELD
        { current_field := ['a'], fields := [], field_length := 1, field_count := 0,
          line := 1, column := 2, record_start_line := 1, error := none,
          in_record := true } from rfl)]
    rw [loop_field_run 'a' (by decide) (by decide) (by decide) 1022
        { current_field := ['a'], fields := [], field_length := 1, field_count := 0,
          line := 1, column := 2, record_start_line := 1, error := none,
          in_record := true }
        ['\r', 'x', '\n'] (by decide)]
    show ((loop ['\r', 'x', '\n'] .FIELD
        { current_field := 'a' :: List.replicate 1022 'a', fields := [],
          field_length := 1023, field_count := 0, line := 1, column := 1024,
          record_start_line := 1, error := none, in_record := true }).record?).map
        (fun r => r.fields.map String.length) = some [1025]
    rw [loop_step_cont (step_field_cr _)]
    rw [loop_step_cont (step_after_cr_other 'x' _ (by decide))]
    rw [loop_step_emit (step_field_newline_first _ rfl rfl)]
    have hlast : (('a' :: List.replicate 1022 'a') ++ ['\r', 'x']).getLast? = some 'x' := by
      rw [List.getLast?_append_cons]; rfl
    have hcf : complete_field (('a' :: List.replicate 1022 'a') ++ ['\r', 'x']) =
        String.mk (('a' :: List.replicate 1022 'a') ++ ['\r', 'x']) :=
      complete_field_no_strip _ (by rw [hlast]; decide) (by rw [hlast]; decide)
    simp only [NextResult.record?, Option.map_some', List.map_cons, List.map_nil, hcf,
               mk_length, List.length_append, List.length_cons, List.length_replicate,
               List.length_nil]

/-! ## Claim C9 — missing positional fields map to `None` -/

/-- A positional index beyond the record's field list reads as absent. -/
theorem get_field_out_of_range (fields : List String) (i : Nat)
    (h : fields.length ≤ i) : get_field fields i = none := by
  unfold get_field
  rw [List.get?_eq_none.mpr h]

/-- C9: for both mappers, whenever mapping succeeds on a record shorter
than the schema's ordered field list, every missing positional field of
the produced typed record is the absent value (`None`); in particular
(witness) a short record maps successfully, so missing fields alone never
raise a `MapperError`. -/
theorem c9_missing_fields_absent :
    (∀ (r : Record) (t : AMRecord), mapAM r = .ok t →
        ∀ i : Nat, r.fields.length ≤ i → amFieldPresent t i = false) ∧
    (∀ (today : PyDate) (r : Record) (t : ENRecord), mapEN today r = .ok t →
        ∀ i : Nat, r.fields.length ≤ i → enFieldPresent t i = false) := by
  constructor
  · intro r t h i hi
    unfold mapAM at h
    split at h
    · simp at h
    · split at h
      · simp at h
      · split at h
        · simp at h
        · rename_i system_id heq1
          split at h
          · simp at h
          · rename_i region_code heq7
            split at h
            · rename_i hvalid
              injection h with ht
              subst ht
              have h1 : get_field r.fields i = none := get_field_out_of_range _ _ hi
              rcases Nat.lt_or_ge i 18 with hlt | hge
              · interval_cases i <;> simp_all [amFieldPresent, amCandidate]
              · obtain ⟨m, rfl⟩ : ∃ m, i = m + 18 := ⟨i - 18, by omega⟩
                rfl
            · simp at h
  · intro today r t h i hi
    unfold mapEN at h
    split at h
    · simp at h
    · rename_i system_id heq1
      split at h
      · simp at h
      · rename_i linked_system_id heq28
        split at h
        · simp at h
        · rename_i status_date heq26
          split at h
          · rename_i hvalid
            injection h with ht
            subst ht
            have h1 : get_field r.fields i = none := get_field_out_of_range _ _ hi
            rcases Nat.lt_or_ge i 30 with hlt | hge
            · interval_cases i <;>
                simp_all [enFieldPresent, enCandidate, formatPhone, parseStatusDate]
            · obtain ⟨m, rfl⟩ : ∃ m, i = m + 30 := ⟨i - 30, by omega⟩
              rfl
          · simp at h

/-- Witness for C9 at a concrete short record of each type: `["AM", "123"]`
maps successfully, and its missing positional field 5 (`operator_class`)
is absent; `["EN"]` maps successfully, and its missing positional field 12
(`phone`) is absent. -/
theorem c9_missing_fields_absent_witness :
    amFieldPresent
      { record_type := some "AM", system_id := some 123, uls_file_number := none,
        ebf_number := none, call_sign := none, operator_class := none,
        group_code := none, region_code := none, trustee_call_sign := none,
        trustee_indicator := none, physician_certification := none,
        ve_signature := none, systematic_call_sign_change := none,
        vanity_call_sign_change := none, vanity_relationship := none,
        previous_call_sign := none, previous_operator_class := none,
        trustee_name := none } 5 = false :=
  c9_missing_fields_absent.1 ⟨1, ["AM", "123"]⟩ _ rfl 5 (by decide)

end Wdlp
